import Mathlib

/-!
Verification development for the resource-proximity engine of the
OpenHealth SD app (`src/app.py`).

The embedding models the program over real numbers: Python floats become
`ℝ`, pandas missing values (`NaN` cells) become `Option`, a pandas
`DataFrame` of resource rows becomes a `List` of records, and the one
pandas operation that can throw inside the query pipeline (boolean-mask
indexing with an NA-containing mask) is modelled by an `Option` result,
`none` standing for the raised `ValueError`.
-/

namespace OpenHealth

open Real

/-- `math.radians`: degrees to radians, `x * (pi / 180)`. -/
noncomputable def rad (x : ℝ) : ℝ := x * (Real.pi / 180)

/-- The haversine intermediate `a` from `haversine_km` (src/app.py:41-46):
`a = sin(dphi/2)**2 + cos(p1)*cos(p2)*sin(dlmb/2)**2` with
`p1 = radians(lat1)`, `p2 = radians(lat2)`, `dphi = radians(lat2-lat1)`,
`dlmb = radians(lon2-lon1)`. -/
noncomputable def haversineA (lat1 lon1 lat2 lon2 : ℝ) : ℝ :=
  Real.sin (rad (lat2 - lat1) / 2) ^ 2 +
    Real.cos (rad lat1) * Real.cos (rad lat2) * Real.sin (rad (lon2 - lon1) / 2) ^ 2

/-- `haversine_km` (src/app.py:37-47): `2 * R * asin(sqrt(a))` with
`R = 6371.0` km.  `Real.arcsin` agrees with Python's `math.asin` on the
domain `[-1, 1]`; the domain condition itself is stated separately by
`haversineA_bounds` below. -/
noncomputable def haversine_km (lat1 lon1 lat2 lon2 : ℝ) : ℝ :=
  2 * 6371.0 * Real.arcsin (Real.sqrt (haversineA lat1 lon1 lat2 lon2))

/-- Swapping the two points leaves the haversine `a` term unchanged:
`dphi` and `dlmb` flip sign under the swap, and `sin` is odd while the
squares are even; the cosine product commutes. -/
theorem haversineA_flip (lat1 lon1 lat2 lon2 : ℝ) :
    haversineA lat2 lon2 lat1 lon1 = haversineA lat1 lon1 lat2 lon2 := by
  unfold haversineA rad
  have h1 : (lat1 - lat2) * (Real.pi / 180) / 2 =
      -((lat2 - lat1) * (Real.pi / 180) / 2) := by ring
  have h2 : (lon1 - lon2) * (Real.pi / 180) / 2 =
      -((lon2 - lon1) * (Real.pi / 180) / 2) := by ring
  rw [h1, h2, Real.sin_neg, Real.sin_neg]
  ring

/-- The haversine `a` term rewritten through product-to-sum identities:
`a = (1 - (sin p1 sin p2 + cos p1 cos p2 cos dlmb)) / 2`, i.e. half of
one minus the cosine of the central angle. -/
theorem haversineA_eq_half_sub (lat1 lon1 lat2 lon2 : ℝ) :
    haversineA lat1 lon1 lat2 lon2 =
      (1 - (Real.sin (rad lat1) * Real.sin (rad lat2) +
        Real.cos (rad lat1) * Real.cos (rad lat2) * Real.cos (rad (lon2 - lon1)))) / 2 := by
  unfold haversineA
  have hphi : rad (lat2 - lat1) = rad lat2 - rad lat1 := by unfold rad; ring
  have h1 : Real.sin (rad (lat2 - lat1) / 2) ^ 2 =
      1 / 2 - Real.cos (rad lat2 - rad lat1) / 2 := by
    rw [Real.sin_sq_eq_half_sub,
      show 2 * (rad (lat2 - lat1) / 2) = rad (lat2 - lat1) by ring, hphi]
  have h2 : Real.sin (rad (lon2 - lon1) / 2) ^ 2 =
      1 / 2 - Real.cos (rad (lon2 - lon1)) / 2 := by
    rw [Real.sin_sq_eq_half_sub,
      show 2 * (rad (lon2 - lon1) / 2) = rad (lon2 - lon1) by ring]
  rw [h1, h2, Real.cos_sub]
  ring

/-- The haversine `a` term always lies in `[0, 1]` over the reals,
for arbitrary inputs. -/
theorem haversineA_bounds (lat1 lon1 lat2 lon2 : ℝ) :
    0 ≤ haversineA lat1 lon1 lat2 lon2 ∧ haversineA lat1 lon1 lat2 lon2 ≤ 1 := by
  rw [haversineA_eq_half_sub]
  have hp1 := Real.sin_sq_add_cos_sq (rad lat1)
  have hp2 := Real.sin_sq_add_cos_sq (rad lat2)
  have hl := Real.sin_sq_add_cos_sq (rad (lon2 - lon1))
  constructor
  · nlinarith [sq_nonneg (Real.cos (rad lat1) * Real.cos (rad (lon2 - lon1)) -
        Real.cos (rad lat2)),
      sq_nonneg (Real.cos (rad lat1) * Real.sin (rad (lon2 - lon1))),
      sq_nonneg (Real.sin (rad lat1) - Real.sin (rad lat2))]
  · nlinarith [sq_nonneg (Real.cos (rad lat1) * Real.cos (rad (lon2 - lon1)) +
        Real.cos (rad lat2)),
      sq_nonneg (Real.cos (rad lat1) * Real.sin (rad (lon2 - lon1))),
      sq_nonneg (Real.sin (rad lat1) + Real.sin (rad lat2))]

/-- The distance of a point to itself is zero. -/
theorem haversine_self (la lo : ℝ) : haversine_km la lo la lo = 0 := by
  unfold haversine_km haversineA rad
  simp

/-- C4: For all coordinate pairs A and B, `distance(A,B) = distance(B,A)`
exactly: the formula is obtained by pure operand substitution, so the swap
negates `dphi` and `dlmb` (squares of sines are unchanged) and commutes
the cosine product, leaving the result identical. -/
theorem haversine_symmetric (lat1 lon1 lat2 lon2 : ℝ) :
    haversine_km lat1 lon1 lat2 lon2 = haversine_km lat2 lon2 lat1 lon1 := by
  unfold haversine_km
  rw [haversineA_flip]

/-- C5: for valid coordinates the argument reaching the inverse sine,
`sqrt a`, lies in `[0, 1]` (and `a` itself lies in `[0, 1]`, so the square
root is also in-domain): no domain error can occur, including at antipodal
and coincident points. -/
theorem haversine_arcsin_arg_in_unit (lat1 lon1 lat2 lon2 : ℝ)
    (hlat1 : -90 ≤ lat1 ∧ lat1 ≤ 90) (hlat2 : -90 ≤ lat2 ∧ lat2 ≤ 90)
    (hlon1 : -180 ≤ lon1 ∧ lon1 ≤ 180) (hlon2 : -180 ≤ lon2 ∧ lon2 ≤ 180) :
    0 ≤ haversineA lat1 lon1 lat2 lon2 ∧ haversineA lat1 lon1 lat2 lon2 ≤ 1 ∧
      0 ≤ Real.sqrt (haversineA lat1 lon1 lat2 lon2) ∧
      Real.sqrt (haversineA lat1 lon1 lat2 lon2) ≤ 1 := by
  obtain ⟨h0, h1⟩ := haversineA_bounds lat1 lon1 lat2 lon2
  exact ⟨h0, h1, Real.sqrt_nonneg _, (Real.sqrt_le_sqrt h1).trans_eq Real.sqrt_one⟩

/-- C5 witness: the bound instantiated at San Diego downtown against its
own antipode. -/
theorem haversine_arcsin_arg_in_unit_inst :
    0 ≤ haversineA 32.7157 (-117.1611) (-32.7157) 62.8389 ∧
      haversineA 32.7157 (-117.1611) (-32.7157) 62.8389 ≤ 1 ∧
      0 ≤ Real.sqrt (haversineA 32.7157 (-117.1611) (-32.7157) 62.8389) ∧
      Real.sqrt (haversineA 32.7157 (-117.1611) (-32.7157) 62.8389) ≤ 1 :=
  haversine_arcsin_arg_in_unit 32.7157 (-117.1611) (-32.7157) 62.8389
    (by norm_num) (by norm_num) (by norm_num) (by norm_num)

/-- A loaded resource record (one row of the catalog after
`load_resources`).  String-valued cells may be missing in the CSV
(pandas `NaN`), which `Option` models; `lat`/`lon` are guaranteed numeric
by the load step. -/
structure RRecord where
  name : Option String
  type : Option String
  address : Option String
  lat : ℝ
  lon : ℝ
  hours : Option String
  phone : Option String
  notes : Option String

/-- A raw CSV row before load.  `lat`/`lon` hold the outcome of
`pd.to_numeric(..., errors="coerce")` on the cell: `some x` when the cell
coerces to the number `x`, `none` when the cell is absent or fails
numeric coercion (pandas `NaN`). -/
structure RawRow where
  name : Option String
  type : Option String
  address : Option String
  lat : Option ℝ
  lon : Option ℝ
  hours : Option String
  phone : Option String
  notes : Option String

/-- One row of the `dropna(subset=["lat", "lon"])` step: a row survives
exactly when both coordinates coerced. -/
def coerceRow (row : RawRow) : Option RRecord :=
  match row.lat, row.lon with
  | some la, some lo =>
      some { name := row.name, type := row.type, address := row.address,
             lat := la, lon := lo,
             hours := row.hours, phone := row.phone, notes := row.notes }
  | _, _ => none

/-- `load_resources` (src/app.py:50-71).  `none` input models a missing
file (`os.path.exists` false) or an empty file (`pd.errors.EmptyDataError`),
both of which the code turns into an empty frame; otherwise the rows are
numerically coerced and rows with a non-coercing `lat` or `lon` are
dropped, keeping the remaining rows in source order. -/
def load_resources (src : Option (List RawRow)) : List RRecord :=
  match src with
  | none => []
  | some rows => rows.filterMap coerceRow

/-- C6: loading from a missing source or an empty source yields an empty
catalog, and loading any row list yields, without any failure, exactly the
rows whose `lat` and `lon` both coerce, in source order and with all
fields carried over unchanged. -/
theorem load_resources_robust :
    load_resources none = [] ∧ load_resources (some []) = [] ∧
    ∀ rows : List RawRow,
      (load_resources (some rows)).map
          (fun rec => (some rec.lat, some rec.lon, rec.name, rec.type,
            rec.address, rec.hours, rec.phone, rec.notes)) =
        (rows.filter fun row => row.lat.isSome && row.lon.isSome).map
          (fun row => (row.lat, row.lon, row.name, row.type,
            row.address, row.hours, row.phone, row.notes)) := by
  refine ⟨rfl, rfl, ?_⟩
  intro rows
  induction rows with
  | nil => rfl
  | cons row rest ih =>
    rcases hla : row.lat with _ | la <;> rcases hlo : row.lon with _ | lo <;>
      simp [load_resources, coerceRow, hla, hlo, List.filter_cons] at ih ⊢ <;>
      exact ih

/-- C8 (amended): every record of a loaded catalog takes its coordinates
from a source row on which both numeric coercions succeeded; no range
restriction is imposed. -/
theorem load_record_coords_provenance (rows : List RawRow) (rec : RRecord)
    (h : rec ∈ load_resources (some rows)) :
    ∃ row ∈ rows, row.lat = some rec.lat ∧ row.lon = some rec.lon := by
  unfold load_resources at h
  obtain ⟨row, hmem, hco⟩ := List.mem_filterMap.mp h
  refine ⟨row, hmem, ?_⟩
  unfold coerceRow at hco
  rcases hla : row.lat with _ | la <;> rcases hlo : row.lon with _ | lo <;>
    rw [hla, hlo] at hco <;> simp at hco
  obtain ⟨rfl⟩ := hco
  exact ⟨rfl, rfl⟩

/-- A raw row whose latitude (999) is far outside `[-90, 90]` but is
numeric, so the load step keeps it. -/
def badRow : RawRow :=
  { name := some "Out Of Range", type := some "Shelter", address := some "n/a",
    lat := some 999, lon := some 0, hours := none, phone := none, notes := none }

/-- The record `load_resources` produces from `badRow`. -/
def badRec : RRecord :=
  { name := some "Out Of Range", type := some "Shelter", address := some "n/a",
    lat := 999, lon := 0, hours := none, phone := none, notes := none }

/-- C8 counterexample: the loaded catalog of `[badRow]` contains a record
whose latitude is 999, so the claimed range invariant
`lat ∈ [-90, 90] ∧ lon ∈ [-180, 180]` fails after load: the code never
range-checks coordinates. -/
theorem load_no_range_check :
    ¬ ∀ rec ∈ load_resources (some [badRow]),
        (-90 ≤ rec.lat ∧ rec.lat ≤ 90 ∧ -180 ≤ rec.lon ∧ rec.lon ≤ 180) := by
  intro h
  have hm : load_resources (some [badRow]) = [badRec] := rfl
  have hb := h badRec (by rw [hm]; exact List.mem_singleton.mpr rfl)
  have : (999 : ℝ) ≤ 90 := by simpa [badRec] using hb.2.1
  norm_num at this

/-- C8 witness (for the amended provenance theorem): instantiated at the
single-row list `[badRow]`. -/
theorem load_record_coords_provenance_inst :
    (badRec ∈ load_resources (some [badRow])) ∧
      ∃ row ∈ [badRow], row.lat = some badRec.lat ∧ row.lon = some badRec.lon :=
  ⟨List.mem_singleton.mpr rfl,
    load_record_coords_provenance [badRow] badRec (List.mem_singleton.mpr rfl)⟩

/-- Python `str.lower()` on a cell value, viewed as its character
sequence. -/
def toLowerCh (s : String) : List Char := s.data.map Char.toLower

/-- Python's substring test `n in h` on character sequences: `n` occurs
contiguously in `h` (the empty needle is always found). -/
def subSeq (n : List Char) : List Char → Bool
  | [] => n.isEmpty
  | c :: t => n.isPrefixOf (c :: t) || subSeq n t

/-- The category filter (src/app.py:427-428):
`work_df[work_df["type"].isin(sel_tipos)]`, applied only when the
selection is non-empty (`if sel_tipos:`).  `isin` is false on a missing
(`NaN`) category. -/
def catPred (sel : List String) (r : RRecord) : Bool :=
  match r.type with
  | some t => sel.contains t
  | none => false

/-- The category step of the map-tab pipeline (src/app.py:426-428). -/
def catFilter (sel : List String) (catalog : List RRecord) : List RRecord :=
  if sel.isEmpty then catalog else catalog.filter (catPred sel)

/-- The boolean mask of the text filter for one row (src/app.py:433-436):
`name.lower().contains(low) | address.lower().contains(low)`.
`str.contains` yields `NaN` on a missing cell, and pandas' element-wise
`|` propagates the null, so the mask entry is `none` whenever `name` or
`address` is missing.  Simplification: `str.contains` is called with its
default `regex=True`, so `low` is really a regular-expression pattern;
this mask treats it as a literal substring, which agrees with the code
exactly when `low` contains no regex metacharacter.  `rowMaskRe` below is
the refined mask with the regex call left external. -/
def rowMask (low : List Char) (r : RRecord) : Option Bool :=
  match r.name, r.address with
  | some n, some ad => some (subSeq low (toLowerCh n) || subSeq low (toLowerCh ad))
  | _, _ => none

/-- Python `str.strip()`: drop whitespace from both ends, viewed as a
character sequence.  (`Char.isWhitespace` covers ASCII whitespace;
Python additionally strips `\v`, `\f` and Unicode whitespace, which no
statement below depends on.) -/
def pyStrip (s : String) : List Char :=
  ((s.data.dropWhile Char.isWhitespace).reverse.dropWhile Char.isWhitespace).reverse

/-- The text step of the pipeline (src/app.py:431-436): skipped when the
stripped search text is empty (`if search_txt.strip():`); otherwise the
frame is indexed with the mask built from
`low = search_txt.strip().lower()`.  Pandas raises `ValueError` ("cannot
mask with non-boolean array containing NA / NaN values") if any mask
entry is null, which `none` models; otherwise the rows whose mask entry
is `True` survive.  Simplification: this version inherits `rowMask`'s
literal-substring reading of `str.contains` and so has no
regex-compilation error path; it agrees with the code exactly when the
lowered search text is free of regex metacharacters.  The error-handling
claim is settled against the refined `textFilterRe` below instead. -/
def textFilter (txt : String) (work : List RRecord) : Option (List RRecord) :=
  if pyStrip txt = [] then some work
  else if work.all fun r => (rowMask ((pyStrip txt).map Char.toLower) r).isSome then
    some (work.filter fun r => (rowMask ((pyStrip txt).map Char.toLower) r).getD false)
  else none

/-- The characters the Python `re` module treats as special in a pattern:
`. ^ $ * + ? [ ] \ | ( )` and the two braces (written via their code
points 123 and 125). -/
def reMetaChars : List Char :=
  '.' :: '^' :: '$' :: '*' :: '+' :: '?' :: '[' :: ']' :: '\\' :: '|' ::
    '(' :: ')' :: Char.ofNat 123 :: Char.ofNat 125 :: []

/-- A pattern with no `re` metacharacter: `re.compile` always accepts it
and matching it is plain substring search. -/
def metaFree (pat : List Char) : Bool :=
  pat.all fun c => !(reMetaChars.contains c)

/-- An external regular-expression engine, standing for Python's `re`
module as invoked by `Series.str.contains(low)` with its default
`regex=True` (src/app.py:434-435): `compile pat` tells whether
`re.compile(pat)` succeeds (`false` = `re.error` is raised before any
cell is looked at), and `search pat s` is the match outcome of a pattern
that compiled.  The engine itself is outside the repository, so it is
kept abstract except on the fragment the development relies on, which the
two laws pin down: a metacharacter-free pattern always compiles, and its
regex search coincides with the literal substring test. -/
structure ReEngine where
  compile : List Char → Bool
  search : List Char → List Char → Bool
  literal_ok : ∀ pat, metaFree pat = true → compile pat = true
  literal_search : ∀ pat s, metaFree pat = true → search pat s = subSeq pat s

/-- The admissible engine whose search is the literal substring test.  On
metacharacter-free patterns — the only ones any statement below applies
it to — every admissible engine, including Python's `re`, behaves like
this one. -/
def litEngine : ReEngine where
  compile := fun _ => true
  search := subSeq
  literal_ok := fun _ _ => rfl
  literal_search := fun _ _ _ => rfl

/-- The refined per-row mask: as `rowMask`, but with the regex search
left to the engine. -/
def rowMaskRe (E : ReEngine) (low : List Char) (r : RRecord) : Option Bool :=
  match r.name, r.address with
  | some n, some ad => some (E.search low (toLowerCh n) || E.search low (toLowerCh ad))
  | _, _ => none

/-- The refined text step (src/app.py:431-436) with both error paths of
the code: `str.contains` first compiles `low` as a regex, so an invalid
pattern raises `re.error` (first `none` branch) before any mask exists;
with a compiled pattern, an NA mask entry (missing name or address) makes
the boolean indexing raise `ValueError` (second `none` branch). -/
def textFilterRe (E : ReEngine) (txt : String) (work : List RRecord) :
    Option (List RRecord) :=
  if pyStrip txt = [] then some work
  else if E.compile ((pyStrip txt).map Char.toLower) = true then
    (if work.all fun r => (rowMaskRe E ((pyStrip txt).map Char.toLower) r).isSome then
      some (work.filter fun r => (rowMaskRe E ((pyStrip txt).map Char.toLower) r).getD false)
    else none)
  else none

/-- The distance column (src/app.py:439-441): each surviving row is
paired with its `haversine_km` distance from the query origin. -/
noncomputable def rankDist (la lo : ℝ) (work : List RRecord) : List (RRecord × ℝ) :=
  work.map fun r => (r, haversine_km la lo r.lat r.lon)

/-- The ordering step (src/app.py:442): `work_df.sort_values("dist_km")`,
modelled as a sort ascending by the distance column.  The model uses a
stable insertion sort; note that the pandas call itself leaves
`kind='quicksort'` (numpy introsort) as the sort algorithm, which is not
stable, so the relative order of equal-distance rows is NOT part of what
this model claims to reproduce — only the ascending order and the
multiset of rows. -/
noncomputable def sortByDist (l : List (RRecord × ℝ)) : List (RRecord × ℝ) :=
  List.insertionSort (fun a b => a.2 ≤ b.2) l

/-- The full map-tab query pipeline (src/app.py:424-443): category
filter, text filter, distance computation, sort by distance, radius
threshold (`work_df[work_df["dist_km"] <= max_km]`).  The result is
`none` exactly when the text-filter step raises. -/
noncomputable def mapQuery (catalog : List RRecord) (sel : List String) (txt : String)
    (la lo maxKm : ℝ) : Option (List (RRecord × ℝ)) :=
  (textFilter txt (catFilter sel catalog)).map fun work =>
    (sortByDist (rankDist la lo work)).filter fun p => decide (p.2 ≤ maxKm)

/-- The pipeline with the refined text step: identical to `mapQuery`
except that the text filter also carries the regex-compilation error
path. -/
noncomputable def mapQueryRe (E : ReEngine) (catalog : List RRecord) (sel : List String)
    (txt : String) (la lo maxKm : ℝ) : Option (List (RRecord × ℝ)) :=
  (textFilterRe E txt (catFilter sel catalog)).map fun work =>
    (sortByDist (rankDist la lo work)).filter fun p => decide (p.2 ≤ maxKm)

/-- The multiselect option list (src/app.py:391):
`sorted(df_map["type"].dropna().unique().tolist())` — the distinct
non-missing categories of the catalog.  The model keeps first-occurrence
order rather than sorting; only membership in the list is ever used. -/
def tipos (catalog : List RRecord) : List String :=
  (catalog.filterMap fun r => r.type).dedup

/-- The demo record substituted in the map tab when the catalog is empty
(src/app.py:371-388). -/
def demoShelter : RRecord :=
  { name := some "Demo Shelter", type := some "Shelter", address := some "123 Demo St",
    lat := 32.7157, lon := -117.1611,
    hours := some "24 horas", phone := some "619-000-0000", notes := some "Ejemplo demo" }

/-- The map tab's catalog after the empty-catalog fallback
(src/app.py:371-388): `if df_map.empty:` replace the frame with the
one-row demo frame. -/
def mapCatalog (loaded : List RRecord) : List RRecord :=
  if loaded.isEmpty then [demoShelter] else loaded

/-- An empty search box skips the text filter. -/
theorem textFilter_empty (work : List RRecord) : textFilter "" work = some work := by
  unfold textFilter
  rw [if_pos (show pyStrip "" = [] from rfl)]

/-- Evaluation helper: a query over a catalog whose category step leaves
exactly one record, with an empty search text, returns that single record
with its distance, provided the distance is within the radius. -/
theorem mapQuery_single (catalog : List RRecord) (sel : List String) (r : RRecord)
    (la lo maxKm : ℝ) (hc : catFilter sel catalog = [r])
    (hd : haversine_km la lo r.lat r.lon ≤ maxKm) :
    mapQuery catalog sel "" la lo maxKm =
      some [(r, haversine_km la lo r.lat r.lon)] := by
  unfold mapQuery
  rw [hc, textFilter_empty]
  simp [rankDist, sortByDist, hd]

/-- C2: with all other query parameters equal, every ranked record
returned at radius `r1` is also returned at any radius `r2 ≥ r1`: the
radius only appears in the final threshold filter. -/
theorem mapQuery_radius_mono (catalog : List RRecord) (sel : List String) (txt : String)
    (la lo r1 r2 : ℝ) (out1 out2 : List (RRecord × ℝ))
    (hr : r1 ≤ r2)
    (h1 : mapQuery catalog sel txt la lo r1 = some out1)
    (h2 : mapQuery catalog sel txt la lo r2 = some out2) :
    ∀ p ∈ out1, p ∈ out2 := by
  unfold mapQuery at h1 h2
  rcases htf : textFilter txt (catFilter sel catalog) with _ | work
  · rw [htf] at h1
    exact absurd h1 (by simp)
  · rw [htf] at h1 h2
    simp only [Option.map_some', Option.some.injEq] at h1 h2
    subst h1
    subst h2
    intro p hp
    rw [List.mem_filter] at hp ⊢
    refine ⟨hp.1, decide_eq_true (le_trans (of_decide_eq_true hp.2) hr)⟩

/-- C2 witness: the demo record at distance 0 is returned at radius 1 and
still returned at radius 2. -/
theorem mapQuery_radius_mono_inst :
    (1 : ℝ) ≤ 2 ∧
    mapQuery [demoShelter] [] "" 32.7157 (-117.1611) 1 = some [(demoShelter, 0)] ∧
    mapQuery [demoShelter] [] "" 32.7157 (-117.1611) 2 = some [(demoShelter, 0)] ∧
    ∀ p ∈ [((demoShelter : RRecord), (0 : ℝ))], p ∈ [((demoShelter : RRecord), (0 : ℝ))] := by
  have hd : haversine_km 32.7157 (-117.1611) demoShelter.lat demoShelter.lon = 0 :=
    haversine_self 32.7157 (-117.1611)
  have h1 : mapQuery [demoShelter] [] "" 32.7157 (-117.1611) 1 = some [(demoShelter, 0)] := by
    have h := mapQuery_single [demoShelter] [] demoShelter 32.7157 (-117.1611) 1
      rfl (by rw [hd]; norm_num)
    rw [hd] at h
    exact h
  have h2 : mapQuery [demoShelter] [] "" 32.7157 (-117.1611) 2 = some [(demoShelter, 0)] := by
    have h := mapQuery_single [demoShelter] [] demoShelter 32.7157 (-117.1611) 2
      rfl (by rw [hd]; norm_num)
    rw [hd] at h
    exact h
  exact ⟨by norm_num, h1, h2,
    mapQuery_radius_mono [demoShelter] [] "" 32.7157 (-117.1611) 1 2 _ _
      (by norm_num) h1 h2⟩

/-- Every record surviving the category step came from the catalog. -/
theorem catFilter_subset (sel : List String) (catalog : List RRecord) :
    ∀ r ∈ catFilter sel catalog, r ∈ catalog := by
  intro r hr
  unfold catFilter at hr
  by_cases hs : sel.isEmpty
  · rwa [if_pos hs] at hr
  · rw [if_neg hs] at hr
    exact List.mem_of_mem_filter hr

/-- On a metacharacter-free lowered search text, the refined text step of
any admissible engine agrees with the simplified one: the pattern
compiles and its regex search is the literal substring test. -/
theorem textFilterRe_literal (E : ReEngine) (txt : String) (work : List RRecord)
    (hm : metaFree ((pyStrip txt).map Char.toLower) = true) :
    textFilterRe E txt work = textFilter txt work := by
  unfold textFilterRe textFilter
  by_cases ht : pyStrip txt = []
  · rw [if_pos ht, if_pos ht]
  · rw [if_neg ht, if_neg ht, E.literal_ok _ hm, if_pos rfl]
    have hmask : ∀ r, rowMaskRe E ((pyStrip txt).map Char.toLower) r =
        rowMask ((pyStrip txt).map Char.toLower) r := by
      intro r
      unfold rowMaskRe rowMask
      rcases hn : r.name with _ | n <;> rcases ha : r.address with _ | ad <;>
        simp [E.literal_search _ _ hm]
    simp only [hmask]

/-- C3 (amended): the refined pipeline returns a (possibly empty)
sequence and never raises, PROVIDED the search text is blank, or its
stripped lower-cased form contains no regex metacharacter (so
`re.compile` accepts it) and every record carries both a name and an
address; an empty catalog yields the empty sequence, not an error.  (The
unamended claim fails on missing name/address fields — see
`mapQueryRe_missing_name_raises` — and the code can also raise `re.error`
on a search text that is an invalid regex, such as "(", which is why the
amendment restricts to metacharacter-free search text.) -/
theorem mapQueryRe_no_raise (E : ReEngine) (catalog : List RRecord) (sel : List String)
    (txt : String) (la lo maxKm : ℝ)
    (h : pyStrip txt = [] ∨
      (metaFree ((pyStrip txt).map Char.toLower) = true ∧
        ∀ r ∈ catalog, r.name.isSome ∧ r.address.isSome)) :
    ∃ out, mapQueryRe E catalog sel txt la lo maxKm = some out ∧
      (catalog = [] → out = []) := by
  have hsub := catFilter_subset sel catalog
  obtain ⟨work, hw, hmem⟩ :
      ∃ work, textFilterRe E txt (catFilter sel catalog) = some work ∧
        ∀ r ∈ work, r ∈ catalog := by
    unfold textFilterRe
    by_cases ht : pyStrip txt = []
    · rw [if_pos ht]
      exact ⟨_, rfl, hsub⟩
    · rcases h with h | ⟨hm, h⟩
      · exact absurd h ht
      · have hall : ((catFilter sel catalog).all
            fun r => (rowMaskRe E ((pyStrip txt).map Char.toLower) r).isSome) = true := by
          rw [List.all_eq_true]
          intro r hr
          obtain ⟨hn, ha⟩ := h r (hsub r hr)
          unfold rowMaskRe
          rcases hn' : r.name with _ | n
          · rw [hn'] at hn
            simp at hn
          · rcases ha' : r.address with _ | ad
            · rw [ha'] at ha
              simp at ha
            · simp
        rw [if_neg ht, E.literal_ok _ hm, if_pos rfl, if_pos hall]
        exact ⟨_, rfl, fun r hr => hsub r (List.mem_of_mem_filter hr)⟩
  refine ⟨(sortByDist (rankDist la lo work)).filter fun p => decide (p.2 ≤ maxKm),
    ?_, ?_⟩
  · unfold mapQueryRe
    rw [hw]
    rfl
  · intro hcat
    subst hcat
    have hw0 : work = [] := by
      cases work with
      | nil => rfl
      | cons a as => exact absurd (hmem a (List.mem_cons_self a as)) (List.not_mem_nil a)
    subst hw0
    rfl

/-- C3 witness: a one-record catalog with name and address present and
the literal (metacharacter-free) search text "demo", and also the empty
catalog with a blank search. -/
theorem mapQueryRe_no_raise_inst :
    ((pyStrip "demo" = [] ∨
        (metaFree ((pyStrip "demo").map Char.toLower) = true ∧
          ∀ r ∈ [demoShelter], r.name.isSome ∧ r.address.isSome)) ∧
      ∃ out, mapQueryRe litEngine [demoShelter] [] "demo" 0 0 8 = some out ∧
        ([demoShelter] = ([] : List RRecord) → out = [])) ∧
    ((pyStrip "" = [] ∨
        (metaFree ((pyStrip "").map Char.toLower) = true ∧
          ∀ r ∈ ([] : List RRecord), r.name.isSome ∧ r.address.isSome)) ∧
      ∃ out, mapQueryRe litEngine [] [] "" 0 0 8 = some out ∧
        (([] : List RRecord) = [] → out = [])) := by
  constructor
  · have hm : metaFree ((pyStrip "demo").map Char.toLower) = true := by decide
    have h : ∀ r ∈ [demoShelter], r.name.isSome ∧ r.address.isSome := by
      intro r hr
      rw [List.mem_singleton] at hr
      subst hr
      exact ⟨rfl, rfl⟩
    exact ⟨Or.inr ⟨hm, h⟩,
      mapQueryRe_no_raise litEngine [demoShelter] [] "demo" 0 0 8 (Or.inr ⟨hm, h⟩)⟩
  · exact ⟨Or.inl rfl, mapQueryRe_no_raise litEngine [] [] "" 0 0 8 (Or.inl rfl)⟩

/-- A record with a missing (`NaN`) name, as a CSV row with an empty name
cell produces. -/
def noNameRec : RRecord :=
  { name := none, type := some "Food", address := some "456 Elm",
    lat := 0, lon := 0, hours := none, phone := none, notes := none }

/-- C3 counterexample: on a catalog containing a record with a missing
name, a query with the non-empty search text "x" raises (`none`): "x" is
metacharacter-free, so every admissible engine compiles it, and the
`str.contains` mask then holds an NA entry, which pandas refuses to index
with.  This contradicts the claim that the pipeline never raises for
every catalog, including ones with missing names. -/
theorem mapQueryRe_missing_name_raises :
    mapQueryRe litEngine [noNameRec] [] "x" 0 0 8 = none := by
  have ht : ¬(pyStrip "x" = []) := by decide
  have hB : ¬(([noNameRec].all
      fun r => (rowMaskRe litEngine ((pyStrip "x").map Char.toLower) r).isSome) = true) := by
    simp [rowMaskRe, noNameRec]
  unfold mapQueryRe
  have hcf : catFilter [] [noNameRec] = [noNameRec] := rfl
  rw [hcf]
  unfold textFilterRe
  rw [if_neg ht, show litEngine.compile ((pyStrip "x").map Char.toLower) = true from rfl,
    if_pos rfl, if_neg hB]
  rfl

/-- C7 (amended): when every record's category is present (no `NaN` in
the `type` column), selecting exactly the catalog's distinct categories
returns the same sequence as the empty "allow all" selection.  (The
unamended claim fails on catalogs with a missing category: see
`mapQuery_full_category_set_cex`.) -/
theorem mapQuery_full_category_set (catalog : List RRecord) (txt : String)
    (la lo maxKm : ℝ) (h : ∀ r ∈ catalog, (r.type).isSome) :
    mapQuery catalog (tipos catalog) txt la lo maxKm =
      mapQuery catalog [] txt la lo maxKm := by
  have hc : catFilter (tipos catalog) catalog = catalog := by
    unfold catFilter
    by_cases hs : (tipos catalog).isEmpty
    · rw [if_pos hs]
    · rw [if_neg hs]
      rw [List.filter_eq_self]
      intro r hr
      obtain ⟨t, ht⟩ := Option.isSome_iff_exists.mp (h r hr)
      have hmem : t ∈ tipos catalog := by
        unfold tipos
        rw [List.mem_dedup]
        exact List.mem_filterMap.mpr ⟨r, hr, ht⟩
      unfold catPred
      rw [ht]
      exact List.elem_eq_true_of_mem hmem
  have hc0 : catFilter [] catalog = catalog := rfl
  unfold mapQuery
  rw [hc, hc0]

/-- C7 witness: a catalog whose single record carries the category
"Shelter". -/
theorem mapQuery_full_category_set_inst :
    (∀ r ∈ [demoShelter], (r.type).isSome) ∧
      mapQuery [demoShelter] (tipos [demoShelter]) "" 0 0 8 =
        mapQuery [demoShelter] [] "" 0 0 8 := by
  have h : ∀ r ∈ [demoShelter], (r.type).isSome := by
    intro r hr
    rw [List.mem_singleton] at hr
    subst hr
    rfl
  exact ⟨h, mapQuery_full_category_set [demoShelter] "" 0 0 8 h⟩

/-- A record with a present category. -/
def recA : RRecord :=
  { name := some "A", type := some "Shelter", address := some "a",
    lat := 0, lon := 0, hours := none, phone := none, notes := none }

/-- A record with a missing (`NaN`) category. -/
def recB : RRecord :=
  { name := some "B", type := none, address := some "b",
    lat := 0, lon := 0, hours := none, phone := none, notes := none }

/-- C7 counterexample: on a catalog holding one "Shelter" record and one
record with a missing category, selecting the full distinct-category set
`["Shelter"]` drops the missing-category record (`isin` is false on NaN),
while the empty "allow all" selection keeps it — the two result
sequences differ. -/
theorem mapQuery_full_category_set_cex :
    mapQuery [recA, recB] (tipos [recA, recB]) "" 0 0 5 ≠
      mapQuery [recA, recB] [] "" 0 0 5 := by
  have ht : tipos [recA, recB] = ["Shelter"] := rfl
  have h0 : haversine_km 0 0 (0 : ℝ) 0 = 0 := haversine_self 0 0
  have hL : mapQuery [recA, recB] ["Shelter"] "" 0 0 5 = some [(recA, 0)] := by
    have h := mapQuery_single [recA, recB] ["Shelter"] recA 0 0 5
      rfl (by show haversine_km 0 0 (0 : ℝ) 0 ≤ 5; rw [h0]; norm_num)
    rw [show haversine_km 0 0 recA.lat recA.lon = 0 from h0] at h
    exact h
  have hR : mapQuery [recA, recB] [] "" 0 0 5 = some [(recA, 0), (recB, 0)] := by
    unfold mapQuery
    have hcf : catFilter [] [recA, recB] = [recA, recB] := rfl
    rw [hcf, textFilter_empty]
    have hr1 : haversine_km 0 0 recA.lat recA.lon = 0 := h0
    have hr2 : haversine_km 0 0 recB.lat recB.lon = 0 := h0
    simp [rankDist, sortByDist, hr1, hr2]
  rw [ht, hL, hR]
  simp

/-- C10: when the loaded catalog is empty, the map tab swaps in the
one-record demo catalog — "Demo Shelter", category "Shelter", at
(32.7157, -117.1611) — instead of querying the empty catalog, and the
default map query (origin = default coords, radius 8) over that fallback
returns a non-empty result. -/
theorem map_tab_demo_fallback (loaded : List RRecord) (h : loaded = []) :
    mapCatalog loaded = [demoShelter] ∧
    demoShelter.name = some "Demo Shelter" ∧
    demoShelter.type = some "Shelter" ∧
    demoShelter.lat = 32.7157 ∧ demoShelter.lon = -117.1611 ∧
    mapQuery (mapCatalog loaded) [] "" 32.7157 (-117.1611) 8 =
      some [(demoShelter, 0)] := by
  subst h
  refine ⟨rfl, rfl, rfl, rfl, rfl, ?_⟩
  have hd : haversine_km 32.7157 (-117.1611) demoShelter.lat demoShelter.lon = 0 :=
    haversine_self 32.7157 (-117.1611)
  have h := mapQuery_single (mapCatalog []) [] demoShelter 32.7157 (-117.1611) 8
    rfl (by rw [hd]; norm_num)
  rw [hd] at h
  exact h

/-- C10 witness: instantiated at the empty loaded catalog. -/
theorem map_tab_demo_fallback_inst :
    mapCatalog [] = [demoShelter] ∧
    demoShelter.name = some "Demo Shelter" ∧
    demoShelter.type = some "Shelter" ∧
    demoShelter.lat = 32.7157 ∧ demoShelter.lon = -117.1611 ∧
    mapQuery (mapCatalog []) [] "" 32.7157 (-117.1611) 8 =
      some [(demoShelter, 0)] :=
  map_tab_demo_fallback [] rfl

/-- A weather classification band (spec §4.5 / glossary). -/
inductive WeatherBand where
  | cold
  | heat
  | moderate
  deriving DecidableEq

/-- Modelled from the spec: the weather-triggered band classifier of
§4.5.  The "News & Clima" tab in src/app.py:674-684 contains only static
text — no temperature, description, or band logic exists under `src/` —
so the classifier is taken from the spec's words: cold when
`temperature ≤ 8.0` OR the description contains "cold"
case-insensitively, else heat when `temperature ≥ 35.0`, else
moderate (cold checked first). -/
def classifyWeather (temp : ℚ) (desc : String) : WeatherBand :=
  if temp ≤ 8 ∨ subSeq "cold".data (toLowerCh desc) = true then WeatherBand.cold
  else if 35 ≤ temp then WeatherBand.heat
  else WeatherBand.moderate

/-- Modelled from the spec: the cold-band recommended subset of §4.5 —
"all Shelter-category records within the query radius, nearest five" —
expressed through the map query pipeline restricted to the Shelter
category, keeping the first five of the distance-ordered result. -/
noncomputable def coldRecommend (catalog : List RRecord) (la lo radius : ℝ) :
    Option (List (RRecord × ℝ)) :=
  (mapQuery catalog ["Shelter"] "" la lo radius).map fun l => l.take 5

/-- C9: the classifier assigns the cold band exactly when the temperature
is at most 8.0 or the description contains "cold" case-insensitively (so
a "cold" description wins even at heat-band temperatures), and the
cold-band recommendation holds at most five records, each of Shelter
category and within the query radius. -/
theorem weather_cold_band (temp : ℚ) (desc : String) (catalog : List RRecord)
    (la lo radius : ℝ) (out : List (RRecord × ℝ))
    (hrec : coldRecommend catalog la lo radius = some out) :
    (classifyWeather temp desc = WeatherBand.cold ↔
      (temp ≤ 8 ∨ subSeq "cold".data (toLowerCh desc) = true)) ∧
    (subSeq "cold".data (toLowerCh desc) = true →
      classifyWeather temp desc = WeatherBand.cold) ∧
    out.length ≤ 5 ∧
    ∀ p ∈ out, p.1.type = some "Shelter" ∧ p.2 ≤ radius := by
  have hiff : classifyWeather temp desc = WeatherBand.cold ↔
      (temp ≤ 8 ∨ subSeq "cold".data (toLowerCh desc) = true) := by
    unfold classifyWeather
    split_ifs with h1 h2
    · simp [h1]
    · simp [h1]
    · simp [h1]
  refine ⟨hiff, fun hc => hiff.mpr (Or.inr hc), ?_, ?_⟩
  all_goals
    unfold coldRecommend at hrec
    rw [show mapQuery catalog ["Shelter"] "" la lo radius =
        (textFilter "" (catFilter ["Shelter"] catalog)).map fun work =>
          (sortByDist (rankDist la lo work)).filter fun p => decide (p.2 ≤ radius)
      from rfl, textFilter_empty] at hrec
    simp only [Option.map_some', Option.some.injEq] at hrec
    subst hrec
  · calc (List.take 5 _).length = min 5 _ := List.length_take 5 _
      _ ≤ 5 := min_le_left _ _
  · intro p hp
    have hpl := List.take_subset 5 _ hp
    rw [List.mem_filter] at hpl
    obtain ⟨hsort, hdec⟩ := hpl
    have hdist : p.2 ≤ radius := of_decide_eq_true hdec
    unfold sortByDist at hsort
    have hrank : p ∈ rankDist la lo (catFilter ["Shelter"] catalog) :=
      (List.perm_insertionSort (fun a b : RRecord × ℝ => a.2 ≤ b.2) _).mem_iff.mp hsort
    unfold rankDist at hrank
    obtain ⟨r, hrmem, hreq⟩ := List.mem_map.mp hrank
    have htype : r.type = some "Shelter" := by
      unfold catFilter at hrmem
      rw [if_neg (by decide)] at hrmem
      have hpred := List.of_mem_filter hrmem
      unfold catPred at hpred
      rcases hty : r.type with _ | t
      · rw [hty] at hpred
        simp at hpred
      · rw [hty] at hpred
        have ht : t = "Shelter" := by simpa using hpred
        rw [ht]
    rw [← hreq]
    exact ⟨htype, by rw [hreq]; exact hdist⟩

/-- C9 witness: spec example scenario 4 — temperature 20.0 with
description "cold front approaching" — evaluated over the one-shelter
demo catalog at radius 8. -/
theorem weather_cold_band_inst :
    coldRecommend [demoShelter] 32.7157 (-117.1611) 8 = some [(demoShelter, 0)] ∧
    ((classifyWeather 20 "cold front approaching" = WeatherBand.cold ↔
        ((20 : ℚ) ≤ 8 ∨
          subSeq "cold".data (toLowerCh "cold front approaching") = true)) ∧
      (subSeq "cold".data (toLowerCh "cold front approaching") = true →
        classifyWeather 20 "cold front approaching" = WeatherBand.cold) ∧
      ([((demoShelter : RRecord), (0 : ℝ))]).length ≤ 5 ∧
      ∀ p ∈ [((demoShelter : RRecord), (0 : ℝ))],
        p.1.type = some "Shelter" ∧ p.2 ≤ 8) := by
  have hd : haversine_km 32.7157 (-117.1611) demoShelter.lat demoShelter.lon = 0 :=
    haversine_self 32.7157 (-117.1611)
  have hq : mapQuery [demoShelter] ["Shelter"] "" 32.7157 (-117.1611) 8 =
      some [(demoShelter, 0)] := by
    have h := mapQuery_single [demoShelter] ["Shelter"] demoShelter
      32.7157 (-117.1611) 8 rfl (by rw [hd]; norm_num)
    rw [hd] at h
    exact h
  have hrec : coldRecommend [demoShelter] 32.7157 (-117.1611) 8 =
      some [(demoShelter, 0)] := by
    unfold coldRecommend
    rw [hq]
    rfl
  exact ⟨hrec, weather_cold_band 20 "cold front approaching" [demoShelter]
    32.7157 (-117.1611) 8 [(demoShelter, 0)] hrec⟩

end OpenHealth
